import Mathlib

/-!
Verification development for the movi_web_app repository.

Shallow embedding of the three layers the claims are about:
validators.py (pure input validation), data_managers/sqlite_data_manager.py
(data access over a SQLite database, modelled as an in-memory `DB` record),
and services.py (business-logic layer).

Modelling conventions, fixed once for the whole file:
* Python `(is_valid, error_message)` pairs whose payload shape matters
  (`validate_user_name`, `validate_movie_name`, ...) are `Bool × Option String`,
  with `none` standing for Python `None`.
* Functions whose boolean always agrees with the payload tag
  (`validate_year`, `validate_movie_data`, the data-access writes) are
  modelled as `Except String α`: `.ok v` is Python `(True, v)` / a normal
  return, `.error e` is Python `(False, e)` / a raised `ValueError` carrying
  message `e`.  A write returning `.error` leaves the database unchanged:
  the code raises before touching the session or rolls the session back.
* Python integer ids are `Nat`; the only falsy integer is `0`, so the
  `if not some_id:` guards become `if some_id = 0`.
* `str.strip()` is `pyStrip` and `str.lower()` is `pyLower` (see below),
  `len` is `String.length` (all the strings in play are ASCII).
-/

/-- Python `str.strip()`: drop leading and trailing whitespace.  Implemented
structurally on the character list so that it computes inside the kernel
(the library's `String.trim` is defined through well-founded recursion on
byte positions and does not reduce there). -/
def pyStrip (s : String) : String :=
  ⟨((s.toList.dropWhile Char.isWhitespace).reverse.dropWhile Char.isWhitespace).reverse⟩

/-- Python `str.lower()`: ASCII lower-casing, character by character.
Implemented structurally on the character list so that it computes inside
the kernel (the library's `String.toLower` maps over byte positions and
does not reduce there). -/
def pyLower (s : String) : String :=
  ⟨s.toList.map Char.toLower⟩

/-- Decimal digits of Python `int(s)` after the first digit: digits with
single underscores allowed between two digits, as in `int("1_900")`. -/
def pyDigits : List Char → Nat → Option Nat
  | [], acc => some acc
  | ['_'], _ => none
  | '_' :: c :: cs, acc =>
    if c.isDigit then pyDigits cs (acc * 10 + (c.toNat - 48)) else none
  | c :: cs, acc =>
    if c.isDigit then pyDigits cs (acc * 10 + (c.toNat - 48)) else none

/-- Unsigned part of Python `int(s)`: at least one digit, then `pyDigits`. -/
def pyUnsigned : List Char → Option Nat
  | [] => none
  | c :: cs => if c.isDigit then pyDigits cs (c.toNat - 48) else none

/-- Python `int(s)` for a string argument: optional surrounding whitespace,
optional sign, decimal digits.  `none` where Python raises `ValueError`. -/
def pyInt (s : String) : Option Int :=
  match (pyStrip s).toList with
  | '+' :: cs => (pyUnsigned cs).map (fun n => (n : Int))
  | '-' :: cs => (pyUnsigned cs).map (fun n => -(n : Int))
  | cs => (pyUnsigned cs).map (fun n => (n : Int))

/-- Row of the `users` table (models/user.py). -/
structure User where
  id : Nat
  name : String
  deriving DecidableEq, Repr

/-- Row of the `movies` table (models/movie.py). -/
structure Movie where
  id : Nat
  name : String
  director : String
  year : Option Int
  rating : Option Int
  user_id : Nat
  deriving DecidableEq, Repr

/-- The whole database state. -/
structure DB where
  users : List User
  movies : List Movie
  deriving DecidableEq, Repr

/-- validators.validate_user_name: `(is_valid, error_message)`; the second
component is `none` exactly on success. -/
def validate_user_name (name : String) (existing_users : Option (List User)) :
    Bool × Option String :=
  if name = "" then (false, some "User name is required.")
  else if name.length > 30 then (false, some "User name must be 30 characters or less.")
  else
    match existing_users with
    | some users =>
      if users.isEmpty then (true, none)
      else if users.any (fun u => pyLower u.name == pyLower name) then
        (false, some "A user with this name already exists.")
      else (true, none)
    | none => (true, none)

/-- validators.validate_movie_name. -/
def validate_movie_name (name : String) : Bool × Option String :=
  if name = "" then (false, some "Movie name is required.")
  else if name.length > 60 then (false, some "Movie name must be 60 characters or less.")
  else (true, none)

/-- validators.validate_director_name. -/
def validate_director_name (director : String) : Bool × Option String :=
  if director = "" then (false, some "Director name is required.")
  else if director.length > 60 then (false, some "Director name must be 60 characters or less.")
  else (true, none)

/-- validators.validate_year: `.ok none` is Python `(True, None)` (empty
input, year optional), `.ok (some y)` is `(True, y)`, `.error e` is `(False, e)`. -/
def validate_year (year_str : String) : Except String (Option Int) :=
  if year_str = "" then .ok none
  else
    match pyInt year_str with
    | none => .error "Please enter a valid year."
    | some year =>
      if year < 1900 ∨ year > 2025 then .error "Year must be between 1900 and 2025."
      else .ok (some year)

/-- validators.validate_rating, same pattern as `validate_year` with bounds 1–10. -/
def validate_rating (rating_str : String) : Except String (Option Int) :=
  if rating_str = "" then .ok none
  else
    match pyInt rating_str with
    | none => .error "Please enter a valid rating."
    | some rating =>
      if rating < 1 ∨ rating > 10 then .error "Rating must be between 1 and 10."
      else .ok (some rating)

/-- validators.validate_movie_duplicate: case-insensitive (name, director)
match against the user's existing movies. -/
def validate_movie_duplicate (name director : String) (existing_movies : List Movie) :
    Bool × Option String :=
  if existing_movies.any (fun m =>
      pyLower m.name == pyLower name && pyLower m.director == pyLower director) then
    (false, some "This movie already exists in your collection.")
  else (true, none)

/-- Raw movie form: `form_data.get(key, '')`, an absent field is `""`. -/
structure MovieForm where
  name : String
  director : String
  year : String
  rating : String
  deriving DecidableEq, Repr

/-- The validated-data dictionary returned by `validate_movie_data`. -/
structure MovieData where
  name : String
  director : String
  year : Option Int
  rating : Option Int
  deriving DecidableEq, Repr

/-- validators.validate_movie_data: strips the four fields, then checks
name, director, year, rating in that order, then (only when
`existing_movies` is not `None`) the duplicate check; first failure wins. -/
def validate_movie_data (form_data : MovieForm) (existing_movies : Option (List Movie)) :
    Except String MovieData :=
  let name := pyStrip form_data.name
  let director := pyStrip form_data.director
  let year_str := pyStrip form_data.year
  let rating_str := pyStrip form_data.rating
  match validate_movie_name name with
  | (false, e) => .error (e.getD "")
  | (true, _) =>
    match validate_director_name director with
    | (false, e) => .error (e.getD "")
    | (true, _) =>
      match validate_year year_str with
      | .error e => .error e
      | .ok year =>
        match validate_rating rating_str with
        | .error e => .error e
        | .ok rating =>
          match existing_movies with
          | some movies =>
            match validate_movie_duplicate name director movies with
            | (false, e) => .error (e.getD "")
            | (true, _) => .ok ⟨name, director, year, rating⟩
          | none => .ok ⟨name, director, year, rating⟩

/-- Raw user form. -/
structure UserForm where
  name : String
  deriving DecidableEq, Repr

/-- validators.validate_user_data: strips the name and runs
`validate_user_name`; on success the payload is the stripped name
(the `{'name': name}` dictionary). -/
def validate_user_data (form_data : UserForm) (existing_users : Option (List User)) :
    Except String String :=
  let name := pyStrip form_data.name
  match validate_user_name name existing_users with
  | (false, e) => .error (e.getD "")
  | (true, _) => .ok name

/-- Rating test of sqlite_data_manager.update_movie:
`rating is not None and (rating < 1 or rating > 10)`. -/
def ratingOutOfRange : Option Int → Bool
  | none => false
  | some r => r < 1 || r > 10

/-- Year test of sqlite_data_manager.update_movie:
`year is not None and (year < 1900 or year > 2025)`. -/
def yearOutOfRange : Option Int → Bool
  | none => false
  | some y => y < 1900 || y > 2025

namespace DM

/-- sqlite_data_manager.get_user_by_id: raises for a falsy id, otherwise a
primary-key lookup (`User.query.get`). -/
def get_user_by_id (user_id : Nat) (db : DB) : Except String (Option User) :=
  if user_id = 0 then .error "User ID is required"
  else .ok (db.users.find? (fun u => u.id == user_id))

/-- sqlite_data_manager.get_movie_by_id: raises for a falsy id, otherwise a
primary-key lookup (`Movie.query.get`). -/
def get_movie_by_id (movie_id : Nat) (db : DB) : Except String (Option Movie) :=
  if movie_id = 0 then .error "Movie ID is required"
  else .ok (db.movies.find? (fun m => m.id == movie_id))

/-- Autoincrement behaviour of the users primary key. -/
def nextUserId (db : DB) : Nat := (db.users.map User.id).foldr max 0 + 1

/-- Autoincrement behaviour of the movies primary key. -/
def nextMovieId (db : DB) : Nat := (db.movies.map Movie.id).foldr max 0 + 1

/-- sqlite_data_manager.add_user.  The blank-name guard
(`not user.name or not user.name.strip()`) collapses to `pyStrip name = ""`.
The users table has no uniqueness constraint (models/user.py), so the
commit itself always succeeds and assigns the next id. -/
def add_user (user : User) (db : DB) : Except String (User × DB) :=
  if pyStrip user.name = "" then .error "User name cannot be empty"
  else
    let u := { user with id := nextUserId db }
    .ok (u, { db with users := db.users ++ [u] })

/-- sqlite_data_manager.add_movie: blank-field and falsy-user_id guards, then
the user-existence lookup, then the commit (the movies table has no
uniqueness constraint, so the commit succeeds and assigns the next id). -/
def add_movie (movie : Movie) (db : DB) : Except String (Movie × DB) :=
  if pyStrip movie.name = "" then .error "Movie name cannot be empty"
  else if pyStrip movie.director = "" then .error "Movie director cannot be empty"
  else if movie.user_id = 0 then .error "Movie must be associated with a user"
  else
    match get_user_by_id movie.user_id db with
    | .error e => .error e
    | .ok none => .error ("User with ID " ++ toString movie.user_id ++ " does not exist")
    | .ok (some _) =>
      let m := { movie with id := nextMovieId db }
      .ok (m, { db with movies := db.movies ++ [m] })

/-- sqlite_data_manager.delete_movie: raises for a falsy id, returns `false`
when no row has that id, else deletes the fetched row and returns `true`. -/
def delete_movie (movie_id : Nat) (db : DB) : Except String (Bool × DB) :=
  if movie_id = 0 then .error "Movie ID is required"
  else
    match db.movies.find? (fun m => m.id == movie_id) with
    | none => .ok (false, db)
    | some _ => .ok (true, { db with movies := db.movies.eraseP (fun m => m.id == movie_id) })

/-- sqlite_data_manager.update_movie: refetch the row by id (raising for a
falsy id), copy the four mutable fields onto it, re-check blankness and the
rating/year ranges, then commit the overwritten row. -/
def update_movie (movie : Movie) (db : DB) : Except String (Movie × DB) :=
  match get_movie_by_id movie.id db with
  | .error e => .error e
  | .ok none => .error ("Movie with ID " ++ toString movie.id ++ " does not exist for update")
  | .ok (some existing) =>
    let updated := { existing with
      name := movie.name, director := movie.director,
      year := movie.year, rating := movie.rating }
    if pyStrip updated.name = "" then .error "Movie name cannot be empty"
    else if pyStrip updated.director = "" then .error "Director name cannot be empty"
    else if ratingOutOfRange updated.rating then .error "Rating must be between 1 and 10"
    else if yearOutOfRange updated.year then .error "Year must be between 1900 and 2025"
    else
      .ok (updated,
        { db with movies := db.movies.map (fun m => if m.id == movie.id then updated else m) })

end DM

/-- Outcome payload of the movie-service operations: a movie on success, a
message on failure. -/
inductive OwnRes where
  | movie : Movie → OwnRes
  | msg : String → OwnRes
  deriving DecidableEq, Repr

/-- Outcome payload of UserService.create_user. -/
inductive URes where
  | user : User → URes
  | msg : String → URes
  deriving DecidableEq, Repr

namespace Svc

/-- services.MovieService.validate_movie_ownership.  The data-access lookup
raises for a falsy id; the `except Exception` handler turns any raise into
`(False, "Error validating movie access.")`. -/
def validate_movie_ownership (movie_id user_id : Nat) (db : DB) : Bool × OwnRes :=
  match DM.get_movie_by_id movie_id db with
  | .error _ => (false, .msg "Error validating movie access.")
  | .ok none => (false, .msg "Movie not found.")
  | .ok (some movie) =>
    if movie.user_id ≠ user_id then (false, .msg "Access denied.")
    else (true, .movie movie)

/-- services.UserService.create_user: validate against all existing users
(duplicate check included), then persist; `_execute_service_method` turns a
raised ValueError into `(False, message)`. -/
def create_user (form_data : UserForm) (db : DB) : (Bool × URes) × DB :=
  match validate_user_data form_data (some db.users) with
  | .error e => ((false, .msg e), db)
  | .ok name =>
    match DM.add_user ⟨0, name⟩ db with
    | .error e => ((false, .msg e), db)
    | .ok (u, db2) => ((true, .user u), db2)

/-- services.MovieService.update_movie: fetch the movie (this lookup is NOT
wrapped, so a raise from a falsy id propagates: the `.error` of the outer
`Except`); "Movie not found." if absent; validate without a duplicate check;
overwrite the fields and persist, ValueErrors becoming `(False, message)`. -/
def update_movie (movie_id : Nat) (form_data : MovieForm) (db : DB) :
    Except String ((Bool × OwnRes) × DB) :=
  match DM.get_movie_by_id movie_id db with
  | .error e => .error e
  | .ok none => .ok ((false, .msg "Movie not found."), db)
  | .ok (some movie) =>
    match validate_movie_data form_data none with
    | .error e => .ok ((false, .msg e), db)
    | .ok d =>
      let movie2 := { movie with
        name := d.name, director := d.director, year := d.year, rating := d.rating }
      match DM.update_movie movie2 db with
      | .error e => .ok ((false, .msg e), db)
      | .ok (m2, db2) => .ok ((true, .movie m2), db2)

end Svc

/-! Concrete fixtures used by counterexamples and witnesses. -/

/-- Empty database. -/
def dbEmpty : DB := ⟨[], []⟩

/-- A 31-character name (over the 30-character user limit). -/
def name31 : String := "aaaaaaaaaaaaaaaaaaaaaaaaaaaaaaa"

/-- The same 31 characters upper-cased. -/
def cap31 : String := "AAAAAAAAAAAAAAAAAAAAAAAAAAAAAAA"

/-- A valid movie owned by user 1. -/
def mInception : Movie := ⟨1, "Inception", "Nolan", some 2010, some 9, 1⟩

/-- User Bob with no movies. -/
def dbBob0 : DB := ⟨[⟨1, "Bob"⟩], []⟩

/-- User Bob owning `mInception`. -/
def dbBob : DB := ⟨[⟨1, "Bob"⟩], [mInception]⟩

/-- User Alice with no movies. -/
def dbAlice : DB := ⟨[⟨1, "Alice"⟩], []⟩

/-- The movie `mInception` with its year moved out of range. -/
def mBadYear : Movie := ⟨1, "Inception", "Nolan", some 2026, some 9, 1⟩

/-- C1 counterexample: at `movie_id = 0` (a falsy id) no movie with that id
exists, yet `validate_movie_ownership` returns the generic
"Error validating movie access." (the data-access lookup raises for a falsy
id and the service catches the exception), not "Movie not found." as the
claim requires for every movie_id. -/
theorem c1_counterexample :
    dbEmpty.movies.find? (fun m => m.id == 0) = none ∧
    Svc.validate_movie_ownership 0 7 dbEmpty = (false, OwnRes.msg "Error validating movie access.") ∧
    OwnRes.msg "Error validating movie access." ≠ OwnRes.msg "Movie not found." :=
  ⟨rfl, rfl, by decide⟩

/-- C1 (amended): for every NONZERO movie_id and every user_id,
`MovieService.validate_movie_ownership` returns failure "Movie not found."
when no movie with that id exists, failure "Access denied." when the movie
exists but is owned by a different user, and success carrying the movie
itself when the owner matches.  (At a falsy movie_id it instead returns
failure "Error validating movie access.", per the counterexample.) -/
theorem c1_theorem (movie_id user_id : Nat) (db : DB) (hid : movie_id ≠ 0) :
    (db.movies.find? (fun m => m.id == movie_id) = none →
      Svc.validate_movie_ownership movie_id user_id db = (false, OwnRes.msg "Movie not found.")) ∧
    (∀ m, db.movies.find? (fun x => x.id == movie_id) = some m →
      (m.user_id ≠ user_id →
        Svc.validate_movie_ownership movie_id user_id db = (false, OwnRes.msg "Access denied.")) ∧
      (m.user_id = user_id →
        Svc.validate_movie_ownership movie_id user_id db = (true, OwnRes.movie m))) := by
  unfold Svc.validate_movie_ownership DM.get_movie_by_id
  rw [if_neg hid]
  refine ⟨fun h => by rw [h], fun m hm => ⟨fun hne => ?_, fun he => ?_⟩⟩
  · rw [hm]; simp [hne]
  · rw [hm]; simp [he]

/-- C1 witness: user 1 owns movie 1 in `dbBob`, so the ownership check
succeeds with the movie. -/
theorem c1_witness :
    Svc.validate_movie_ownership 1 1 dbBob = (true, OwnRes.movie mInception) :=
  ((c1_theorem 1 1 dbBob (by decide)).2 mInception rfl).2 rfl

/-- C2 counterexample: the data-access layer does NOT re-check field
lengths or (on add) numeric ranges.  `add_user` accepts a 31-character
name, and `add_movie` accepts rating 99; both writes succeed, refuting the
claim that such writes are rejected. -/
theorem c2_counterexample :
    30 < name31.length ∧
    DM.add_user ⟨0, name31⟩ dbEmpty = .ok (⟨1, name31⟩, ⟨[⟨1, name31⟩], []⟩) ∧
    (10 : Int) < 99 ∧
    DM.add_movie ⟨0, "X", "Y", none, some 99, 1⟩ dbBob0 =
      .ok (⟨1, "X", "Y", none, some 99, 1⟩, ⟨[⟨1, "Bob"⟩], [⟨1, "X", "Y", none, some 99, 1⟩]⟩) :=
  ⟨by decide, rfl, by decide, rfl⟩

/-- C2 (amended): the defensive re-checks the data-access layer actually
performs: `add_user` rejects a blank user name, `add_movie` rejects blank
name/director, and `update_movie` rejects blank name/director and
out-of-range rating (1–10) and year (1900–2025).  Field lengths are not
re-checked anywhere in the layer, and `add_movie` does not re-check the
numeric ranges (per the counterexample). -/
theorem c2_theorem (u : User) (m : Movie) (db : DB) (ex : Movie) :
    (pyStrip u.name = "" → DM.add_user u db = .error "User name cannot be empty") ∧
    (pyStrip m.name = "" → DM.add_movie m db = .error "Movie name cannot be empty") ∧
    (DM.get_movie_by_id m.id db = .ok (some ex) → pyStrip m.name ≠ "" → pyStrip m.director = "" →
      DM.update_movie m db = .error "Director name cannot be empty") ∧
    (DM.get_movie_by_id m.id db = .ok (some ex) → pyStrip m.name ≠ "" → pyStrip m.director ≠ "" →
      ratingOutOfRange m.rating = true →
      DM.update_movie m db = .error "Rating must be between 1 and 10") ∧
    (DM.get_movie_by_id m.id db = .ok (some ex) → pyStrip m.name ≠ "" → pyStrip m.director ≠ "" →
      ratingOutOfRange m.rating = false → yearOutOfRange m.year = true →
      DM.update_movie m db = .error "Year must be between 1900 and 2025") := by
  refine ⟨fun h => ?_, fun h => ?_, fun hf hn hd => ?_, fun hf hn hd hr => ?_,
    fun hf hn hd hr hy => ?_⟩
  · unfold DM.add_user; rw [if_pos h]
  · unfold DM.add_movie; rw [if_pos h]
  · unfold DM.update_movie; rw [hf]; simp [hn, hd]
  · unfold DM.update_movie; rw [hf]; simp [hn, hd, hr]
  · unfold DM.update_movie; rw [hf]; simp [hn, hd, hr, hy]

/-- C2 witness: a blank user name is rejected by `add_user`, and a year of
2026 on an existing movie is rejected by `update_movie`. -/
theorem c2_witness :
    DM.add_user ⟨0, " "⟩ dbEmpty = .error "User name cannot be empty" ∧
    DM.update_movie mBadYear dbBob = .error "Year must be between 1900 and 2025" :=
  ⟨(c2_theorem ⟨0, " "⟩ mBadYear dbEmpty mInception).1 rfl,
   (c2_theorem ⟨0, " "⟩ mBadYear dbBob mInception).2.2.2.2 rfl (by decide) (by decide) rfl rfl⟩

/-- C3 counterexample: on success `validate_user_name` and
`validate_movie_name` return `(True, None)`, NOT `(True, name)`: the second
component of the pair is `None`, not the validated name the claim
describes. -/
theorem c3_counterexample :
    validate_user_name "Alice" none = (true, none) ∧
    (validate_user_name "Alice" none).2 ≠ some "Alice" ∧
    validate_movie_name "Inception" = (true, none) ∧
    (validate_movie_name "Inception").2 ≠ some "Inception" :=
  ⟨rfl, by decide, rfl, by decide⟩

/-- C3 (amended): for every input, `validate_user_name` and
`validate_movie_name` return `(ok, error_message)` pairs whose second
component is `None` exactly on success and an error message exactly on
failure; both are total functions, so no exception is raised for an
expected validation failure. -/
theorem c3_theorem (name n2 : String) (existing_users : Option (List User)) :
    ((validate_user_name name existing_users).1 = true ↔
      (validate_user_name name existing_users).2 = none) ∧
    ((validate_movie_name n2).1 = true ↔ (validate_movie_name n2).2 = none) := by
  constructor
  · unfold validate_user_name
    repeat' split
    all_goals simp
  · unfold validate_movie_name
    repeat' split
    all_goals simp

/-- Python `int("")` raises: the empty string parses to nothing. -/
theorem pyInt_empty : pyInt "" = none := rfl

/-- A string that parses to an integer is not empty. -/
theorem pyInt_ne_empty {s : String} {n : Int} (h : pyInt s = some n) : s ≠ "" := by
  intro hs
  rw [hs, pyInt_empty] at h
  cases h

/-- C4: `validate_movie_data` runs the checks in the fixed order name,
director, year, rating, then (only when `existing_movies` is provided) the
duplicate check, returning the first failure without consulting the later
checks; when every check passes it returns the validated bundle, whose year
and rating come from `validate_year`/`validate_rating`: `None` for an
omitted field and the parsed integer for a present one (the last two
conjuncts). -/
theorem c4_theorem (form : MovieForm) (ex : Option (List Movie)) :
    ((validate_movie_name (pyStrip form.name)).1 = false →
      validate_movie_data form ex =
        .error ((validate_movie_name (pyStrip form.name)).2.getD "")) ∧
    ((validate_movie_name (pyStrip form.name)).1 = true →
      (validate_director_name (pyStrip form.director)).1 = false →
      validate_movie_data form ex =
        .error ((validate_director_name (pyStrip form.director)).2.getD "")) ∧
    (∀ e, (validate_movie_name (pyStrip form.name)).1 = true →
      (validate_director_name (pyStrip form.director)).1 = true →
      validate_year (pyStrip form.year) = .error e →
      validate_movie_data form ex = .error e) ∧
    (∀ y e, (validate_movie_name (pyStrip form.name)).1 = true →
      (validate_director_name (pyStrip form.director)).1 = true →
      validate_year (pyStrip form.year) = .ok y →
      validate_rating (pyStrip form.rating) = .error e →
      validate_movie_data form ex = .error e) ∧
    (∀ y r movies, (validate_movie_name (pyStrip form.name)).1 = true →
      (validate_director_name (pyStrip form.director)).1 = true →
      validate_year (pyStrip form.year) = .ok y →
      validate_rating (pyStrip form.rating) = .ok r →
      ex = some movies →
      (validate_movie_duplicate (pyStrip form.name) (pyStrip form.director) movies).1 = false →
      validate_movie_data form ex =
        .error ((validate_movie_duplicate (pyStrip form.name) (pyStrip form.director) movies).2.getD "")) ∧
    (∀ y r, (validate_movie_name (pyStrip form.name)).1 = true →
      (validate_director_name (pyStrip form.director)).1 = true →
      validate_year (pyStrip form.year) = .ok y →
      validate_rating (pyStrip form.rating) = .ok r →
      (∀ movies, ex = some movies →
        (validate_movie_duplicate (pyStrip form.name) (pyStrip form.director) movies).1 = true) →
      validate_movie_data form ex = .ok ⟨pyStrip form.name, pyStrip form.director, y, r⟩) ∧
    (pyStrip form.year = "" → validate_year (pyStrip form.year) = .ok none) ∧
    (∀ n : Int, pyInt (pyStrip form.year) = some n → ¬(n < 1900 ∨ n > 2025) →
      validate_year (pyStrip form.year) = .ok (some n)) := by
  refine ⟨?_, ?_, ?_, ?_, ?_, ?_, ?_, ?_⟩
  · intro h1
    rcases hv : validate_movie_name (pyStrip form.name) with ⟨b1, e1⟩
    rw [hv] at h1; simp at h1; subst h1
    simp [validate_movie_data, hv]
  · intro h1 h2
    rcases hv : validate_movie_name (pyStrip form.name) with ⟨b1, e1⟩
    rw [hv] at h1; simp at h1; subst h1
    rcases hw : validate_director_name (pyStrip form.director) with ⟨b2, e2⟩
    rw [hw] at h2; simp at h2; subst h2
    simp [validate_movie_data, hv, hw]
  · intro e h1 h2 hy
    rcases hv : validate_movie_name (pyStrip form.name) with ⟨b1, e1⟩
    rw [hv] at h1; simp at h1; subst h1
    rcases hw : validate_director_name (pyStrip form.director) with ⟨b2, e2⟩
    rw [hw] at h2; simp at h2; subst h2
    simp [validate_movie_data, hv, hw, hy]
  · intro y e h1 h2 hy hr
    rcases hv : validate_movie_name (pyStrip form.name) with ⟨b1, e1⟩
    rw [hv] at h1; simp at h1; subst h1
    rcases hw : validate_director_name (pyStrip form.director) with ⟨b2, e2⟩
    rw [hw] at h2; simp at h2; subst h2
    simp [validate_movie_data, hv, hw, hy, hr]
  · intro y r movies h1 h2 hy hr hex hdup
    subst hex
    rcases hv : validate_movie_name (pyStrip form.name) with ⟨b1, e1⟩
    rw [hv] at h1; simp at h1; subst h1
    rcases hw : validate_director_name (pyStrip form.director) with ⟨b2, e2⟩
    rw [hw] at h2; simp at h2; subst h2
    rcases hd : validate_movie_duplicate (pyStrip form.name) (pyStrip form.director) movies
      with ⟨b3, e3⟩
    rw [hd] at hdup; simp at hdup; subst hdup
    simp [validate_movie_data, hv, hw, hy, hr, hd]
  · intro y r h1 h2 hy hr hdup
    rcases hv : validate_movie_name (pyStrip form.name) with ⟨b1, e1⟩
    rw [hv] at h1; simp at h1; subst h1
    rcases hw : validate_director_name (pyStrip form.director) with ⟨b2, e2⟩
    rw [hw] at h2; simp at h2; subst h2
    cases ex with
    | none => simp [validate_movie_data, hv, hw, hy, hr]
    | some movies =>
      have hdm := hdup movies rfl
      rcases hd : validate_movie_duplicate (pyStrip form.name) (pyStrip form.director) movies
        with ⟨b3, e3⟩
      rw [hd] at hdm; simp at hdm; subst hdm
      simp [validate_movie_data, hv, hw, hy, hr, hd]
  · intro h
    rw [h]
    rfl
  · intro n hp hrange
    have hs : pyStrip form.year ≠ "" := pyInt_ne_empty hp
    simp [validate_year, hs, hp, hrange]

/-- C4 witness: a fully valid form with year and rating present, checked
against an empty existing-movies list, succeeds with the parsed integers. -/
theorem c4_witness :
    validate_movie_data ⟨"Inception", "Nolan", "2010", "9"⟩ (some []) =
      .ok ⟨"Inception", "Nolan", some 2010, some 9⟩ :=
  ( c4_theorem ⟨"Inception", "Nolan", "2010", "9"⟩ (some [])).2.2.2.2.2.1
    (some 2010) (some 9) rfl rfl rfl rfl (fun movies h => by cases h; rfl)

/-- C5 counterexample: a movie with a blank name AND a nonexistent owner is
rejected by `add_movie` with the blank-name message, not with the NotFound
message the claim requires for every movie whose user_id does not exist:
the field checks run before the user-existence check. -/
theorem c5_counterexample :
    (∀ u ∈ dbEmpty.users, u.id ≠ 5) ∧
    DM.add_movie ⟨0, "", "Nolan", none, none, 5⟩ dbEmpty = .error "Movie name cannot be empty" ∧
    ("Movie name cannot be empty" : String) ≠ "User with ID 5 does not exist" :=
  ⟨by decide, rfl, by decide⟩

/-- C5 (amended): for every movie that passes the data layer's own field
checks (non-blank name and director, truthy user_id) whose user_id does not
refer to an existing user, `add_movie` fails with the NotFound-style error,
and since the operation errors before the commit, no movie row is written
(an `.error` outcome carries no new database state). -/
theorem c5_theorem (m : Movie) (db : DB)
    (hn : pyStrip m.name ≠ "") (hd : pyStrip m.director ≠ "") (hu : m.user_id ≠ 0)
    (habs : db.users.find? (fun u => u.id == m.user_id) = none) :
    DM.add_movie m db = .error ("User with ID " ++ toString m.user_id ++ " does not exist") := by
  unfold DM.add_movie DM.get_user_by_id
  rw [if_neg hn, if_neg hd, if_neg hu, if_neg hu, habs]

/-- C5 witness: adding a well-formed movie for nonexistent user 5 to the
empty database fails with the user-not-found error. -/
theorem c5_witness :
    DM.add_movie ⟨0, "Inception", "Nolan", none, none, 5⟩ dbEmpty =
      .error ("User with ID " ++ toString (5 : Nat) ++ " does not exist") :=
  c5_theorem ⟨0, "Inception", "Nolan", none, none, 5⟩ dbEmpty
    (by decide) (by decide) (by decide) rfl

/-- C6 counterexample: an existing movie and a form whose year parses to
2026, but whose name is blank: `MovieService.update_movie` reports the name
error, not the year range error the claim requires for every such form
(validation is short-circuit, name first). -/
theorem c6_counterexample :
    pyInt "2026" = some 2026 ∧
    Svc.update_movie 1 ⟨"", "Nolan", "2026", "9"⟩ dbBob =
      .ok ((false, OwnRes.msg "Movie name is required."), dbBob) ∧
    OwnRes.msg "Movie name is required." ≠ OwnRes.msg "Year must be between 1900 and 2025." :=
  ⟨rfl, rfl, by decide⟩

/-- C6 (amended): for every existing movie and every form whose name and
director fields are valid and whose year field parses to an integer outside
1900–2025, `MovieService.update_movie` fails with the year range error and
the database is returned unchanged: validation runs before the stored movie
is overwritten and before any data-access write.  Second conjunct: the
duplicate check is not run on update, so a form that merely re-states an
existing movie's own (in-bounds) fields is saved successfully, whatever
other movies the database holds. -/
theorem c6_theorem (movie_id : Nat) (form : MovieForm) (db : DB) (m : Movie)
    (hfind : DM.get_movie_by_id movie_id db = .ok (some m)) :
    (pyStrip form.name ≠ "" → (pyStrip form.name).length ≤ 60 →
      pyStrip form.director ≠ "" → (pyStrip form.director).length ≤ 60 →
      ∀ y : Int, pyInt (pyStrip form.year) = some y → (y < 1900 ∨ y > 2025) →
      Svc.update_movie movie_id form db =
        .ok ((false, OwnRes.msg "Year must be between 1900 and 2025."), db)) ∧
    (pyStrip form.name = m.name → pyStrip m.name ≠ "" → m.name.length ≤ 60 →
      pyStrip form.director = m.director → pyStrip m.director ≠ "" → m.director.length ≤ 60 →
      ∀ y r : Int, m.year = some y → pyInt (pyStrip form.year) = some y →
      1900 ≤ y → y ≤ 2025 →
      m.rating = some r → pyInt (pyStrip form.rating) = some r → 1 ≤ r → r ≤ 10 →
      ∃ db2, Svc.update_movie movie_id form db = .ok ((true, OwnRes.movie m), db2)) := by
  constructor
  · intro hn hln hd hld y hy hrange
    have hys : pyStrip form.year ≠ "" := pyInt_ne_empty hy
    have hln2 : ¬ (60 < (pyStrip form.name).length) := by omega
    have hld2 : ¬ (60 < (pyStrip form.director).length) := by omega
    have hv : validate_movie_data form none = .error "Year must be between 1900 and 2025." := by
      simp [validate_movie_data, validate_movie_name, validate_director_name, validate_year,
        hn, hd, hln2, hld2, hys, hy, hrange]
    unfold Svc.update_movie
    rw [hfind, hv]
  · intro hfn hn hln hfd hd hld y r hmy hy hy1 hy2 hmr hr hr1 hr2
    have hys : pyStrip form.year ≠ "" := pyInt_ne_empty hy
    have hrs : pyStrip form.rating ≠ "" := pyInt_ne_empty hr
    have hmname : m.name ≠ "" := fun h => hn (by rw [h]; rfl)
    have hmdir : m.director ≠ "" := fun h => hd (by rw [h]; rfl)
    have hln2 : ¬ (60 < m.name.length) := by omega
    have hld2 : ¬ (60 < m.director.length) := by omega
    have hyr : ¬ (y < 1900 ∨ y > 2025) := by omega
    have hrr : ¬ (r < 1 ∨ r > 10) := by omega
    have hmid : m.id = movie_id := by
      unfold DM.get_movie_by_id at hfind
      split at hfind
      · cases hfind
      · injection hfind with h1
        have h2 := List.find?_some h1
        simpa using h2
    have hv : validate_movie_data form none = .ok ⟨m.name, m.director, some y, some r⟩ := by
      simp [validate_movie_data, validate_movie_name, validate_director_name, validate_year,
        validate_rating, hfn, hfd, hmname, hmdir, hln2, hld2, hys, hrs, hy, hr, hyr, hrr]
    have hreq : ratingOutOfRange m.rating = false := by
      rw [hmr]; simp [ratingOutOfRange]; omega
    have hyeq : yearOutOfRange m.year = false := by
      rw [hmy]; simp [yearOutOfRange]; omega
    have hget : DM.get_movie_by_id m.id db = .ok (some m) := by rw [hmid]; exact hfind
    have hupdm : DM.update_movie m db =
        .ok (m, { db with movies := db.movies.map (fun x => if x.id == m.id then m else x) }) := by
      unfold DM.update_movie
      rw [hget]
      simp [hn, hd, hreq, hyeq]
    unfold Svc.update_movie
    rw [hfind, hv, ← hmy, ← hmr]
    simp only [hupdm]
    exact ⟨_, rfl⟩

/-- C6 witness: re-saving `mInception` through the service with its own
field values succeeds even though the database already contains it. -/
theorem c6_witness :
    ∃ db2, Svc.update_movie 1 ⟨"Inception", "Nolan", "2010", "9"⟩ dbBob =
      .ok ((true, OwnRes.movie mInception), db2) :=
  (c6_theorem 1 ⟨"Inception", "Nolan", "2010", "9"⟩ dbBob mInception rfl).2
    rfl (by decide) (by decide) rfl (by decide) (by decide)
    2010 9 rfl rfl (by decide) (by decide) rfl rfl (by decide) (by decide)

/-- C7: `validate_year` succeeds with `None` on empty input, fails with the
parse error on non-numeric input such as "abc", fails with the range error
for every parsed integer outside 1900–2025 (in particular "1899" and
"2026"), and succeeds with the parsed integer for every integer in range;
`validate_rating` behaves identically with bounds 1–10. -/
theorem c7_theorem :
    validate_year "" = .ok none ∧
    validate_year "abc" = .error "Please enter a valid year." ∧
    validate_year "1899" = .error "Year must be between 1900 and 2025." ∧
    validate_year "2026" = .error "Year must be between 1900 and 2025." ∧
    (∀ s y, pyInt s = some y →
      validate_year s = if y < 1900 ∨ y > 2025 then
        .error "Year must be between 1900 and 2025." else .ok (some y)) ∧
    validate_rating "" = .ok none ∧
    validate_rating "abc" = .error "Please enter a valid rating." ∧
    validate_rating "0" = .error "Rating must be between 1 and 10." ∧
    validate_rating "11" = .error "Rating must be between 1 and 10." ∧
    (∀ s r, pyInt s = some r →
      validate_rating s = if r < 1 ∨ r > 10 then
        .error "Rating must be between 1 and 10." else .ok (some r)) := by
  refine ⟨rfl, rfl, rfl, rfl, ?_, rfl, rfl, rfl, rfl, ?_⟩
  · intro s y h
    have hs : s ≠ "" := pyInt_ne_empty h
    simp only [validate_year, if_neg hs, h]
  · intro s r h
    have hs : s ≠ "" := pyInt_ne_empty h
    simp only [validate_rating, if_neg hs, h]

/-- C7 witness: "2000" parses and lies inside 1900–2025, "5" inside 1–10,
so both validators succeed with the parsed integers. -/
theorem c7_witness :
    pyInt "2000" = some 2000 ∧
    validate_year "2000" = (if (2000 : Int) < 1900 ∨ (2000 : Int) > 2025 then
      .error "Year must be between 1900 and 2025." else .ok (some 2000)) ∧
    pyInt "5" = some 5 ∧
    validate_rating "5" = (if (5 : Int) < 1 ∨ (5 : Int) > 10 then
      .error "Rating must be between 1 and 10." else .ok (some 5)) :=
  ⟨rfl, c7_theorem.2.2.2.2.1 "2000" 2000 rfl, rfl,
   c7_theorem.2.2.2.2.2.2.2.2.2 "5" 5 rfl⟩

/-- C8 counterexample: a 31-character proposed name that case-insensitively
matches an existing user's name is rejected with the length error, not with
the duplicate-name error the claim requires whenever some existing user's
name matches: the length check runs first. -/
theorem c8_counterexample :
    ([⟨1, name31⟩] : List User) ≠ [] ∧
    pyLower name31 = pyLower cap31 ∧
    validate_user_name cap31 (some [⟨1, name31⟩]) =
      (false, some "User name must be 30 characters or less.") ∧
    (some "User name must be 30 characters or less." : Option String) ≠
      some "A user with this name already exists." :=
  ⟨by decide, by decide, rfl, by decide⟩

/-- C8 (amended): for every proposed name that is non-empty and at most 30
characters, and every list of existing users one of whose names matches the
proposal case-insensitively, `validate_user_name` fails with the
duplicate-name error, and consequently `UserService.create_user` fails with
that error on any form whose stripped name is the proposal, leaving the
database unchanged. -/
theorem c8_theorem (name : String) (users : List User)
    (h1 : name ≠ "") (h2 : name.length ≤ 30)
    (h3 : ∃ u ∈ users, pyLower u.name = pyLower name) :
    validate_user_name name (some users) =
      (false, some "A user with this name already exists.") ∧
    (∀ db : DB, db.users = users → ∀ form : UserForm, pyStrip form.name = name →
      Svc.create_user form db =
        ((false, URes.msg "A user with this name already exists."), db)) := by
  have h2n : ¬ (30 < name.length) := by omega
  obtain ⟨u, hu, hlow⟩ := h3
  have hne : users ≠ [] := fun h => by subst h; exact List.not_mem_nil u hu
  have hemp : users.isEmpty = false := by
    cases users with
    | nil => exact absurd rfl hne
    | cons a l => rfl
  have hany : users.any (fun v => pyLower v.name == pyLower name) = true :=
    List.any_eq_true.mpr ⟨u, hu, beq_iff_eq.mpr hlow⟩
  have hval : validate_user_name name (some users) =
      (false, some "A user with this name already exists.") := by
    simp only [validate_user_name, if_neg h1, if_neg h2n, hemp, hany]
    rfl
  refine ⟨hval, fun db hdb form hform => ?_⟩
  have hud : validate_user_data form (some db.users) =
      .error "A user with this name already exists." := by
    simp only [validate_user_data, hform, hdb, hval]
    rfl
  simp only [Svc.create_user, hud]

/-- C8 witness: with user "Alice" in the database, creating a user named
"alice" fails with the duplicate-name error. -/
theorem c8_witness :
    Svc.create_user ⟨"alice"⟩ dbAlice =
      ((false, URes.msg "A user with this name already exists."), dbAlice) :=
  ( c8_theorem "alice" [⟨1, "Alice"⟩] (by decide) (by decide)
    ⟨⟨1, "Alice"⟩, by decide, by decide⟩).2 dbAlice rfl ⟨"alice"⟩ rfl

/-- C9: `delete_movie` fails with the InvalidInput-style error for a falsy
(zero) movie_id, returns `false` without error when no movie with that id
exists, and returns `true` with the row removed when it does exist. -/
theorem c9_theorem (movie_id : Nat) (db : DB) :
    (movie_id = 0 → DM.delete_movie movie_id db = .error "Movie ID is required") ∧
    (movie_id ≠ 0 → db.movies.find? (fun m => m.id == movie_id) = none →
      DM.delete_movie movie_id db = .ok (false, db)) ∧
    (∀ m, movie_id ≠ 0 → db.movies.find? (fun x => x.id == movie_id) = some m →
      DM.delete_movie movie_id db =
        .ok (true, { db with movies := db.movies.eraseP (fun x => x.id == movie_id) })) := by
  refine ⟨fun h => ?_, fun h hn => ?_, fun m h hs => ?_⟩
  · unfold DM.delete_movie
    rw [if_pos h]
  · unfold DM.delete_movie
    rw [if_neg h, hn]
  · unfold DM.delete_movie
    rw [if_neg h, hs]

/-- C9 witness: a falsy id errors, a missing id 2 returns `false` leaving
the database as it was, and deleting the present id 1 returns `true` with
the row gone. -/
theorem c9_witness :
    DM.delete_movie 0 dbBob = .error "Movie ID is required" ∧
    DM.delete_movie 2 dbBob = .ok (false, dbBob) ∧
    DM.delete_movie 1 dbBob = .ok (true, ⟨[⟨1, "Bob"⟩], []⟩) :=
  ⟨(c9_theorem 0 dbBob).1 rfl,
   (c9_theorem 2 dbBob).2.1 (by decide) rfl,
   (c9_theorem 1 dbBob).2.2 mInception (by decide) rfl⟩

/-- Any successful `validate_movie_data` outcome carries the stripped name
and director. -/
theorem vmd_ok_shape (form : MovieForm) (ex : Option (List Movie)) (d : MovieData)
    (h : validate_movie_data form ex = .ok d) :
    d.name = pyStrip form.name ∧ d.director = pyStrip form.director := by
  rcases hv : validate_movie_name (pyStrip form.name) with ⟨b1, e1⟩
  cases b1
  · simp [validate_movie_data, hv] at h
  · rcases hw : validate_director_name (pyStrip form.director) with ⟨b2, e2⟩
    cases b2
    · simp [validate_movie_data, hv, hw] at h
    · rcases hy : validate_year (pyStrip form.year) with ey | oy
      · simp [validate_movie_data, hv, hw, hy] at h
      · rcases hr : validate_rating (pyStrip form.rating) with er | orr
        · simp [validate_movie_data, hv, hw, hy, hr] at h
        · cases ex with
          | none =>
            simp [validate_movie_data, hv, hw, hy, hr] at h
            subst h
            exact ⟨rfl, rfl⟩
          | some movies =>
            rcases hd : validate_movie_duplicate (pyStrip form.name) (pyStrip form.director)
              movies with ⟨b3, e3⟩
            cases b3
            · simp [validate_movie_data, hv, hw, hy, hr, hd] at h
            · simp [validate_movie_data, hv, hw, hy, hr, hd] at h
              subst h
              exact ⟨rfl, rfl⟩

/-- Any successful `validate_user_data` outcome carries the stripped name. -/
theorem vud_ok_shape (uform : UserForm) (uex : Option (List User)) (nm : String)
    (h : validate_user_data uform uex = .ok nm) : nm = pyStrip uform.name := by
  rcases hv : validate_user_name (pyStrip uform.name) uex with ⟨b1, e1⟩
  cases b1
  · simp [validate_user_data, hv] at h
  · simp [validate_user_data, hv] at h
    exact h.symm

/-- C10: `validate_movie_data` strips whitespace from all four fields
before any check runs, so a whitespace-only name (or director) fails with
the corresponding "required" error, a whitespace-only year and rating count
as omitted, and on success the returned name and director are the stripped
strings; `validate_user_data` does the same for the user name. -/
theorem c10_theorem (form : MovieForm) (ex : Option (List Movie))
    (uform : UserForm) (uex : Option (List User)) :
    (pyStrip form.name = "" → validate_movie_data form ex = .error "Movie name is required.") ∧
    (pyStrip form.name ≠ "" → (pyStrip form.name).length ≤ 60 → pyStrip form.director = "" →
      validate_movie_data form ex = .error "Director name is required.") ∧
    (∀ d, validate_movie_data form ex = .ok d →
      d.name = pyStrip form.name ∧ d.director = pyStrip form.director) ∧
    (pyStrip form.name ≠ "" → (pyStrip form.name).length ≤ 60 →
      pyStrip form.director ≠ "" → (pyStrip form.director).length ≤ 60 →
      pyStrip form.year = "" → pyStrip form.rating = "" →
      validate_movie_data form none = .ok ⟨pyStrip form.name, pyStrip form.director, none, none⟩) ∧
    (pyStrip uform.name = "" → validate_user_data uform uex = .error "User name is required.") ∧
    (∀ nm, validate_user_data uform uex = .ok nm → nm = pyStrip uform.name) := by
  refine ⟨fun h => ?_, fun hn hln hd => ?_, fun d h => ?_, fun hn hln hd hld hy hr => ?_,
    fun h => ?_, fun nm h => ?_⟩
  · simp [validate_movie_data, validate_movie_name, h]
  · have hln2 : ¬ (60 < (pyStrip form.name).length) := by omega
    simp [validate_movie_data, validate_movie_name, validate_director_name, hn, hln2, hd]
  · exact vmd_ok_shape form ex d h
  · have hln2 : ¬ (60 < (pyStrip form.name).length) := by omega
    have hld2 : ¬ (60 < (pyStrip form.director).length) := by omega
    simp [validate_movie_data, validate_movie_name, validate_director_name,
      validate_year, validate_rating, hn, hln2, hd, hld2, hy, hr]
  · simp [validate_user_data, validate_user_name, h]
  · exact vud_ok_shape uform uex nm h

/-- C10 witness: a whitespace-only movie name fails with the "required"
error, a form with surrounding whitespace succeeds with stripped values,
and a whitespace-only user name fails with its "required" error. -/
theorem c10_witness :
    validate_movie_data ⟨"   ", "Nolan", "", ""⟩ none = .error "Movie name is required." ∧
    validate_movie_data ⟨" Inception ", " Nolan ", "  ", " "⟩ none =
      .ok ⟨"Inception", "Nolan", none, none⟩ ∧
    validate_user_data ⟨"  "⟩ none = .error "User name is required." :=
  ⟨( c10_theorem ⟨"   ", "Nolan", "", ""⟩ none ⟨"x"⟩ none).1 rfl,
   ( c10_theorem ⟨" Inception ", " Nolan ", "  ", " "⟩ none ⟨"x"⟩ none).2.2.2.1
     (by decide) (by decide) (by decide) (by decide) rfl rfl,
   ( c10_theorem ⟨"x", "y", "", ""⟩ none ⟨"  "⟩ none).2.2.2.2.1 rfl⟩
